import Mathlib

/-!
Shallow embedding of `src/app.py` (maids-tracker KPI dashboard).

The live code is lines 1–201 of `app.py`; the remainder of the file is
commented-out draft revisions.  Dates are modelled as (year, month, day)
triples of naturals; pandas timestamp arithmetic (`.days` differences,
`MonthEnd`, `isocalendar().week`) is modelled through a proleptic-Gregorian
rata-die function and the standard ISO-8601 week-number algorithm, which is
what pandas implements.  DataFrames are modelled as lists of records, and the
pivot table produced by `prepare_grouped` as an index list plus a cell
function returning `Option Nat` (`none` = absent/NaN).  Quota figures and the
Python float divisions are modelled over `ℚ`.
-/

namespace MaidsTracker

/-- A calendar date (year, month, day), as carried by `application_date`
and `today` in `app.py`. -/
structure Date where
  year : Nat
  month : Nat
  day : Nat
deriving DecidableEq, Repr

/-- Gregorian leap-year predicate; this is the rule pandas date arithmetic
follows (used for month lengths and rata-die).  Note `app.py` line 139 does
NOT use this rule for `year_days`, see `year_days` below. -/
def gregorianLeap (y : Nat) : Bool :=
  y % 4 == 0 && (y % 100 != 0 || y % 400 == 0)

/-- Number of days in month `m` of year `y` (Gregorian). -/
def monthLength (y m : Nat) : Nat :=
  if m == 2 then (if gregorianLeap y then 29 else 28)
  else if m == 4 || m == 6 || m == 9 || m == 11 then 30
  else 31

/-- Days in year `y` strictly before month `m`. -/
def daysBeforeMonth (y : Nat) : Nat → Nat
  | 0 => 0
  | 1 => 0
  | m + 1 => daysBeforeMonth y m + monthLength y m

/-- One-based day-of-year of a date. -/
def dayOfYear (d : Date) : Nat :=
  daysBeforeMonth d.year d.month + d.day

/-- Days in the proleptic Gregorian calendar strictly before year `y`. -/
def daysBeforeYear (y : Nat) : Nat :=
  (y - 1) * 365 + (y - 1) / 4 - (y - 1) / 100 + (y - 1) / 400

/-- Rata die: 0001-01-01 has number 1. -/
def toRataDie (d : Date) : Nat :=
  daysBeforeYear d.year + dayOfYear d

/-- `(b - a).days` of pandas date subtraction. -/
def daysBetween (a b : Date) : Int :=
  (toRataDie b : Int) - (toRataDie a : Int)

/-- Date comparison, lexicographic on (year, month, day): the order pandas
timestamps satisfy for valid dates. -/
def Date.ble (a b : Date) : Bool :=
  a.year < b.year ||
    (a.year == b.year &&
      (a.month < b.month || (a.month == b.month && a.day ≤ b.day)))

/-- ISO weekday of a date, Monday = 1 .. Sunday = 7 (0001-01-01 is a Monday
in the proleptic Gregorian calendar). -/
def isoWeekday (d : Date) : Nat :=
  (toRataDie d - 1) % 7 + 1

/-- Number of ISO weeks in year `y` (52 or 53). -/
def isoWeeksInYear (y : Nat) : Nat :=
  let jan1 := isoWeekday ⟨y, 1, 1⟩
  if jan1 == 4 || (gregorianLeap y && jan1 == 3) then 53 else 52

/-- ISO-8601 week number of a date, as computed by
`Timestamp.isocalendar().week` in pandas. -/
def isoWeek (d : Date) : Nat :=
  let w := (dayOfYear d + 10 - isoWeekday d) / 7
  if w == 0 then isoWeeksInYear (d.year - 1)
  else if isoWeeksInYear d.year < w then 1
  else w

/-- One application-event row as loaded by `load_applications`
(`app.py` lines 16–26). -/
structure App where
  application_date : Date
  nationality : String
  location : String
  active_visa_status : String
deriving DecidableEq, Repr

/-- One quota row as loaded by `load_quotas` (`app.py` lines 29–38). -/
structure QuotaRow where
  nationality : String
  location : String
  quota_all : ℚ
  quota_active : ℚ
deriving DecidableEq, Repr

/-- Python's `str.lower()` as used on the ASCII segment values, modelled
character-pointwise. -/
def pyLower (s : String) : String :=
  ⟨s.data.map Char.toLower⟩

/-- `filter_applications` (`app.py` lines 41–45). -/
def filter_applications (df : List App) (nat loc : String) (active_only : Bool) :
    List App :=
  let df := df.filter (fun a => a.nationality == nat && a.location == loc)
  if active_only && pyLower nat == "filipina" && pyLower loc == "philippines" then
    df.filter (fun a => a.active_visa_status == "true")
  else
    df

/-- `get_daily_quota` (`app.py` lines 47–51): first row matching
`(nationality, location)`, `0` when none matches. -/
def get_daily_quota (df : List QuotaRow) (nat loc : String) (active_only : Bool) : ℚ :=
  match df.find? (fun r => r.nationality == nat && r.location == loc) with
  | none => 0
  | some r => if active_only then r.quota_active else r.quota_all

/-- The three granularity levels `"M"`, `"W"`, `"D"` of `prepare_grouped`. -/
inductive Level where
  | M
  | W
  | D
deriving DecidableEq, Repr

/-- A period key of the pivot index: a month abbreviation (kept as its month
number 1–12), an ISO week number, or a `"DD/MM"` day string (kept as the
(day, month) pair). -/
inductive Period where
  | month : Nat → Period
  | week : Nat → Period
  | day : Nat → Nat → Period
deriving DecidableEq, Repr

/-- Period key of an event date at a granularity (`app.py` lines 60–67). -/
def periodOf : Level → Date → Period
  | .M, d => .month d.month
  | .W, d => .week (isoWeek d)
  | .D, d => .day d.day d.month

/-- The sort key of `app.py` line 87:
`int(i.split('/')[1]) * 100 + int(i.split('/')[0])` for a `"DD/MM"` string,
`int(i)` for a week number.  (Month keys never reach this sort.) -/
def periodSortKey : Period → Nat
  | .month m => m
  | .week w => w
  | .day dd mm => mm * 100 + dd

/-- Line 58: restrict to events whose year is `this_year` or `last_year`. -/
def yearFiltered (df : List App) (ty ly : Nat) : List App :=
  df.filter (fun a => a.application_date.year == ty || a.application_date.year == ly)

/-- Whether year `y` is a column of the pivot table: some event of the
year-filtered frame falls in year `y`. -/
def inColumns (df : List App) (ty ly y : Nat) : Bool :=
  (yearFiltered df ty ly).any (fun a => a.application_date.year == y)

/-- The pivot's year columns, ascending as pandas sorts them. -/
def columnsOf (df : List App) (ty ly : Nat) : List Nat :=
  (((yearFiltered df ty ly).map (fun a => a.application_date.year)).dedup).insertionSort
    (· ≤ ·)

/-- Count of year-filtered events in year `y` carrying period key `p`:
the value of `groupby(["period", "year"]).size()` at `(p, y)`. -/
def rawCount (df : List App) (level : Level) (ty ly : Nat) (p : Period) (y : Nat) : Nat :=
  ((yearFiltered df ty ly).filter
    (fun a => a.application_date.year == y && periodOf level a.application_date == p)).length

/-- Period keys observed in either year, in order of first appearance. -/
def observedPeriods (df : List App) (level : Level) (ty ly : Nat) : List Period :=
  ((yearFiltered df ty ly).map (fun a => periodOf level a.application_date)).dedup

/-- The fixed closed month-category list Jan..Dec (`period_order`, line 62). -/
def monthIndexAll : List Period :=
  (List.range 12).map (fun i => .month (i + 1))

/-- Pivot index before the final `sort_index`.  For `"M"` the period column
is a `Categorical` over the 12 fixed months, and `groupby` (with the
pandas default `observed=False`) emits the full product of the 12
categories with the observed years, so the index is all 12 months whenever
any year-filtered event exists.  For `"W"`/`"D"` only observed keys appear. -/
def indexPre (df : List App) (level : Level) (ty ly : Nat) : List Period :=
  match level with
  | .M => if yearFiltered df ty ly = [] then [] else monthIndexAll
  | _ => observedPeriods df level ty ly

/-- Cell of the pivot table before future-masking (lines 69–70).  Cells
outside the index/columns do not exist (`none`).  For `"M"` the
`observed=False` categorical groupby yields a (possibly zero) size for every
(month, observed-year) pair; for `"W"`/`"D"` an unobserved `(key, year)`
pair is `NaN` from `pivot` (`none`). -/
def cellPre (df : List App) (level : Level) (ty ly : Nat) (p : Period) (y : Nat) :
    Option Nat :=
  if inColumns df ty ly y && (indexPre df level ty ly).contains p then
    match level with
    | .M => some (rawCount df level ty ly p y)
    | _ => if rawCount df level ty ly p y == 0 then none
           else some (rawCount df level ty ly p y)
  else
    none

/-- `valid_days` of lines 81–82: the `"DD/MM"` keys of this-year events
dated at-or-before `today`. -/
def validDays (df : List App) (ty ly : Nat) (today : Date) : List Period :=
  (((yearFiltered df ty ly).filter
      (fun a => a.application_date.year == ty && Date.ble a.application_date today)).map
    (fun a => periodOf .D a.application_date)).dedup

/-- Cell of the pivot table after the future-masking of lines 72–84,
applied only to the `this_year` column (and only when that column exists). -/
def maskedCell (df : List App) (level : Level) (ty ly : Nat) (today : Date)
    (p : Period) (y : Nat) : Option Nat :=
  if y == ty && inColumns df ty ly ty then
    match level, p with
    | .M, .month m =>
        if today.month < m then none else cellPre df level ty ly p y
    | .W, .week w =>
        if isoWeek today < w then none else cellPre df level ty ly p y
    | .D, _ =>
        if (validDays df ty ly today).contains p then cellPre df level ty ly p y
        else none
    | _, _ => cellPre df level ty ly p y
  else
    cellPre df level ty ly p y

/-- The pivot table returned by `prepare_grouped`: its row index, year
columns, and cell contents. -/
structure Pivot where
  index : List Period
  cols : List Nat
  cell : Period → Nat → Option Nat

/-- The ascending-by-`periodSortKey` comparison of `sort_index` at line 87,
realised as a stable insertion sort (`pandas.sort_index` is a stable
ascending sort by the key array). -/
def sortIndex (l : List Period) : List Period :=
  l.insertionSort (fun a b => periodSortKey a ≤ periodSortKey b)

/-- `prepare_grouped` (`app.py` lines 54–89).  For `"W"`/`"D"` the index is
re-sorted ascending by `periodSortKey` (lines 86–87); for `"M"` it stays in
categorical (calendar) order. -/
def prepare_grouped (df : List App) (level : Level) (ty ly : Nat) (today : Date) :
    Pivot where
  index :=
    match level with
    | .M => indexPre df .M ty ly
    | _ => sortIndex (indexPre df level ty ly)
  cols := columnsOf df ty ly
  cell := fun p y => maskedCell df level ty ly today p y

/-- `year_days` (`app.py` line 139): `366 if today.year % 4 == 0 else 365`.
Note the divisibility-by-4 test, not the full Gregorian rule. -/
def year_days (today : Date) : Nat :=
  if today.year % 4 == 0 then 366 else 365

/-- `total_quota` (line 141). -/
def total_quota (daily_quota : ℚ) (today : Date) : ℚ :=
  daily_quota * (year_days today : ℚ)

/-- `first_day` (line 144): `today.replace(day=1)`. -/
def first_day (today : Date) : Date :=
  { today with day := 1 }

/-- `last_day` (line 145): `first_day + MonthEnd(0)`, the last calendar day
of `today`'s month. -/
def last_day (today : Date) : Date :=
  ⟨today.year, today.month, monthLength today.year today.month⟩

/-- `days_passed` (line 146): `(today - first_day).days + 1`. -/
def days_passed (today : Date) : Int :=
  daysBetween (first_day today) today + 1

/-- `remaining_days_in_month` (line 147): `(last_day - today).days`. -/
def remaining_days_in_month (today : Date) : Int :=
  daysBetween today (last_day today)

/-- `monthly_quota` (line 149). -/
def monthly_quota (daily_quota : ℚ) (today : Date) : ℚ :=
  daily_quota * ((days_passed today + remaining_days_in_month today : Int) : ℚ)

/-- `attained_this_month` (line 150): count of filtered events dated in
`[first_day, today]` inclusive. -/
def attained_this_month (df : List App) (today : Date) : Nat :=
  (df.filter (fun a =>
    Date.ble (first_day today) a.application_date &&
      Date.ble a.application_date today)).length

/-- `percent_delivered` (line 151); the Python `if monthly_quota` truthiness
guard is `monthly_quota ≠ 0`. -/
def percent_delivered (df : List App) (daily_quota : ℚ) (today : Date) : ℚ :=
  if monthly_quota daily_quota today ≠ 0 then
    (attained_this_month df today : ℚ) / monthly_quota daily_quota today * 100
  else 0

/-- `forecast_by_eom` (line 152):
`int(attained / days_passed * (days_passed + remaining))` when
`days_passed` is non-zero, else `0`.  The quantities are non-negative for
every real date, so Python's truncating `int()` is the floor. -/
def forecast_by_eom (df : List App) (today : Date) : Int :=
  if days_passed today ≠ 0 then
    ⌊(attained_this_month df today : ℚ) / ((days_passed today : Int) : ℚ) *
      ((days_passed today + remaining_days_in_month today : Int) : ℚ)⌋
  else 0

/-- `percent_forecast` (line 153). -/
def percent_forecast (df : List App) (daily_quota : ℚ) (today : Date) : ℚ :=
  if monthly_quota daily_quota today ≠ 0 then
    ((forecast_by_eom df today : Int) : ℚ) / monthly_quota daily_quota today * 100
  else 0

/-- `attained` (line 196): filtered events falling in `this_year`. -/
def attained_year (df : List App) (ty : Nat) : Nat :=
  (df.filter (fun a => a.application_date.year == ty)).length

/-- `remaining_days` (line 197): `(Timestamp(this_year-12-31) - today).days`. -/
def remaining_days (ty : Nat) (today : Date) : Int :=
  daysBetween today ⟨ty, 12, 31⟩

/-- `needed_avg` (lines 198–200): daily required pace, scaled ×30 for the
monthly view and ×7 for the weekly view. -/
def needed_avg (df : List App) (level : Level) (daily_quota : ℚ) (today : Date) : ℚ :=
  let base : ℚ :=
    if 0 < remaining_days today.year today then
      (total_quota daily_quota today - (attained_year df today.year : ℚ)) /
        ((remaining_days today.year today : Int) : ℚ)
    else 0
  match level with
  | .M => base * 30
  | .W => base * 7
  | .D => base

/-- Whether period key `p` lies chronologically strictly after `today` at the
resolution of `level`: a later month number, a larger ISO week number, or a
later (month, day) pair within the year.  Keys of the wrong shape for the
level never arise and are not "after". -/
def periodAfter : Level → Period → Date → Bool
  | .M, .month m, t => t.month < m
  | .W, .week w, t => isoWeek t < w
  | .D, .day dd mm, t => t.month < mm || (t.month == mm && t.day < dd)
  | _, _, _ => false

/-- The three events of the spec's end-to-end scenario:
2024-01-05, 2024-01-20 and 2023-01-10 for segment (A, B). -/
def c2Events : List App :=
  [⟨⟨2024, 1, 5⟩, "A", "B", "true"⟩,
   ⟨⟨2024, 1, 20⟩, "A", "B", "true"⟩,
   ⟨⟨2023, 1, 10⟩, "A", "B", "true"⟩]

/-- Events whose day keys are "05/01", "20/12" and "01/02". -/
def c5Events : List App :=
  [⟨⟨2024, 1, 5⟩, "A", "B", "true"⟩,
   ⟨⟨2024, 12, 20⟩, "A", "B", "true"⟩,
   ⟨⟨2024, 2, 1⟩, "A", "B", "true"⟩]

/-- A single January event, leaving every other month unobserved. -/
def c8Events : List App := [⟨⟨2024, 1, 5⟩, "A", "B", "true"⟩]

/-- A single future-dated current-year event (ISO week 27 of 2024). -/
def c1Events : List App := [⟨⟨2024, 7, 1⟩, "A", "B", "true"⟩]

/-- A matching Filipina/Philippines event whose visa flag is the
false-marker. -/
def c6EventSpecial : App := ⟨⟨2024, 5, 1⟩, "Filipina", "Philippines", "false"⟩

/-- A non-special-segment event whose visa flag is the false-marker. -/
def c6EventOther : App := ⟨⟨2024, 5, 1⟩, "Ethiopian", "outside_uae", "false"⟩

/-- A quota table with a single non-special segment row. -/
def c9Quotas : List QuotaRow := [⟨"Ethiopian", "outside_uae", 5, 3⟩]

/-! ## Theorems -/

/-- C4 counterexample: in the year 2100 the code's `year_days` is 366
(2100 is divisible by 4), yet 2100 is not a Gregorian leap year, so
"year_length is 366 if and only if today's year is a leap year" is false
as stated for the Gregorian rule the claim invokes. -/
theorem c4_counterexample :
    year_days ⟨2100, 1, 1⟩ = 366 ∧ gregorianLeap 2100 = false := by
  decide

/-- C4 (amended): `year_days` is 366 exactly when the year is divisible by
4 (the code's rule, line 139), else 365; `annual_quota = daily_quota *
year_length`; the rule agrees with the Gregorian leap-year rule for every
non-century year (and for centuries divisible by 400); and the claim's
instances hold: 2024 gives 366 and 2023 gives 365. -/
theorem c4_year_days :
    (∀ today : Date, year_days today = 366 ↔ today.year % 4 = 0) ∧
    (∀ today : Date, year_days today = 365 ↔ today.year % 4 ≠ 0) ∧
    (∀ (dq : ℚ) (today : Date), total_quota dq today = dq * (year_days today : ℚ)) ∧
    (∀ today : Date, today.year % 100 ≠ 0 ∨ today.year % 400 = 0 →
      (year_days today = 366 ↔ gregorianLeap today.year = true)) ∧
    year_days ⟨2024, 1, 1⟩ = 366 ∧ year_days ⟨2023, 1, 1⟩ = 365 := by
  refine ⟨fun t => ?_, fun t => ?_, fun dq t => rfl, fun t h => ?_, by decide, by decide⟩
  · by_cases h : t.year % 4 = 0 <;> simp [year_days, h]
  · by_cases h : t.year % 4 = 0 <;> simp [year_days, h]
  · by_cases h4 : t.year % 4 = 0
    · simp [year_days, gregorianLeap, h4]
      tauto
    · simp [year_days, gregorianLeap, h4]

/-- C4 witness: the amended leap-rule agreement, instantiated at 2024. -/
theorem c4_year_days_witness :
    ((2024 : Nat) % 100 ≠ 0 ∨ (2024 : Nat) % 400 = 0) ∧
    (year_days ⟨2024, 1, 1⟩ = 366 ↔ gregorianLeap 2024 = true) :=
  ⟨by decide, c4_year_days.2.2.2.1 ⟨2024, 1, 1⟩ (by decide)⟩

/-- C2: the monthly forecast postcondition.  `monthly_quota` is
`daily_quota * (days_elapsed + days_remaining)` with `days_elapsed =
(today - first_of_month).days + 1` and `days_remaining =
(last_of_month - today).days`; `attained_this_month` counts events dated in
`[first_of_month, today]` inclusive; `forecast_by_eom` is
`⌊delivered / days_elapsed * (days_elapsed + days_remaining)⌋`, and `0`
when `days_elapsed` is `0`.  On the events 2024-01-05, 2024-01-20 and
2023-01-10 with `daily_quota = 10` and `today = 2024-01-21`:
`monthly_quota = 310`, `delivered = 2`, `forecast = 2`. -/
theorem c2_monthly_forecast :
    (∀ (dq : ℚ) (today : Date), monthly_quota dq today =
      dq * (((daysBetween (first_day today) today + 1) +
        daysBetween today (last_day today) : Int) : ℚ)) ∧
    (∀ (df : List App) (today : Date), attained_this_month df today =
      (df.filter (fun a => Date.ble (first_day today) a.application_date &&
        Date.ble a.application_date today)).length) ∧
    (∀ (df : List App) (today : Date), days_passed today = 0 →
      forecast_by_eom df today = 0) ∧
    (∀ (df : List App) (today : Date), days_passed today ≠ 0 →
      forecast_by_eom df today =
        ⌊(attained_this_month df today : ℚ) / ((days_passed today : Int) : ℚ) *
          ((days_passed today + remaining_days_in_month today : Int) : ℚ)⌋) ∧
    monthly_quota 10 ⟨2024, 1, 21⟩ = 310 ∧
    attained_this_month c2Events ⟨2024, 1, 21⟩ = 2 ∧
    forecast_by_eom c2Events ⟨2024, 1, 21⟩ = 2 := by
  have hdp : days_passed ⟨2024, 1, 21⟩ = 21 := by decide
  have hrm : remaining_days_in_month ⟨2024, 1, 21⟩ = 10 := by decide
  have ham : attained_this_month c2Events ⟨2024, 1, 21⟩ = 2 := by decide
  refine ⟨fun dq t => rfl, fun df t => rfl, fun df t h => ?_, fun df t h => ?_,
    ?_, ham, ?_⟩
  · simp [forecast_by_eom, h]
  · simp [forecast_by_eom, h]
  · rw [monthly_quota, hdp, hrm]; norm_num
  · rw [forecast_by_eom, hdp, hrm, ham]
    rw [if_pos (by norm_num)]
    rw [Int.floor_eq_iff]
    norm_num

/-- C2 witness: the `days_elapsed ≠ 0` branch of the forecast formula,
instantiated at the scenario's inputs. -/
theorem c2_monthly_forecast_witness :
    days_passed ⟨2024, 1, 21⟩ ≠ 0 ∧
    forecast_by_eom c2Events ⟨2024, 1, 21⟩ =
      ⌊(attained_this_month c2Events ⟨2024, 1, 21⟩ : ℚ) /
          ((days_passed ⟨2024, 1, 21⟩ : Int) : ℚ) *
        ((days_passed ⟨2024, 1, 21⟩ + remaining_days_in_month ⟨2024, 1, 21⟩ :
          Int) : ℚ)⌋ :=
  ⟨by decide, c2_monthly_forecast.2.2.2.1 c2Events ⟨2024, 1, 21⟩ (by decide)⟩

/-- C3: the required pace.  The daily figure is
`(annual_quota − delivered_this_year) / remaining_days_in_year`, `0` when
`remaining_days_in_year ≤ 0`; the month-granularity figure is the daily one
times 30 and the week-granularity figure the daily one times 7. -/
theorem c3_required_pace :
    (∀ (df : List App) (dq : ℚ) (today : Date), needed_avg df .D dq today =
      if 0 < remaining_days today.year today then
        (total_quota dq today - (attained_year df today.year : ℚ)) /
          ((remaining_days today.year today : Int) : ℚ)
      else 0) ∧
    (∀ (df : List App) (dq : ℚ) (today : Date),
      needed_avg df .M dq today = needed_avg df .D dq today * 30) ∧
    (∀ (df : List App) (dq : ℚ) (today : Date),
      needed_avg df .W dq today = needed_avg df .D dq today * 7) ∧
    (∀ (df : List App) (dq : ℚ) (level : Level) (today : Date),
      remaining_days today.year today ≤ 0 → needed_avg df level dq today = 0) := by
  refine ⟨fun df dq t => rfl, fun df dq t => rfl, fun df dq t => rfl,
    fun df dq level t h => ?_⟩
  cases level <;> simp [needed_avg, not_lt.mpr h]

/-- C3 witness: on Dec 31 there are no remaining days, so the required pace
is 0 for the monthly view. -/
theorem c3_required_pace_witness :
    remaining_days (Date.year ⟨2024, 12, 31⟩) ⟨2024, 12, 31⟩ ≤ 0 ∧
    needed_avg [] .M 5 ⟨2024, 12, 31⟩ = 0 :=
  ⟨by decide, c3_required_pace.2.2.2 [] 5 .M ⟨2024, 12, 31⟩ (by decide)⟩

/-- C10: when the year's deliveries already exceed the annual quota and days
remain in the year, the required-average figure is strictly negative — the
numerator `total_quota − attained` is not clamped at 0, only a non-positive
denominator yields 0. -/
theorem c10_negative_pace (df : List App) (dq : ℚ) (level : Level) (today : Date)
    (h1 : 0 < remaining_days today.year today)
    (h2 : total_quota dq today < (attained_year df today.year : ℚ)) :
    needed_avg df level dq today < 0 := by
  have hbase :
      (total_quota dq today - (attained_year df today.year : ℚ)) /
        ((remaining_days today.year today : Int) : ℚ) < 0 :=
    div_neg_of_neg_of_pos (by linarith) (by exact_mod_cast h1)
  cases level <;> simp only [needed_avg, if_pos h1]
  · exact mul_neg_of_neg_of_pos hbase (by norm_num)
  · exact mul_neg_of_neg_of_pos hbase (by norm_num)
  · exact hbase

/-- C10 witness: with a zero quota and one delivered 2024 event on June 15,
2024, the required average is negative. -/
theorem c10_negative_pace_witness :
    0 < remaining_days (Date.year ⟨2024, 6, 15⟩) ⟨2024, 6, 15⟩ ∧
    total_quota 0 ⟨2024, 6, 15⟩ <
      (attained_year [⟨⟨2024, 6, 1⟩, "A", "B", "true"⟩] (Date.year ⟨2024, 6, 15⟩) : ℚ) ∧
    needed_avg [⟨⟨2024, 6, 1⟩, "A", "B", "true"⟩] .D 0 ⟨2024, 6, 15⟩ < 0 := by
  have h1 : 0 < remaining_days (Date.year ⟨2024, 6, 15⟩) ⟨2024, 6, 15⟩ := by decide
  have h2 : total_quota 0 ⟨2024, 6, 15⟩ <
      (attained_year [⟨⟨2024, 6, 1⟩, "A", "B", "true"⟩] (Date.year ⟨2024, 6, 15⟩) : ℚ) := by
    have : attained_year [⟨⟨2024, 6, 1⟩, "A", "B", "true"⟩] (Date.year ⟨2024, 6, 15⟩) = 1 := by
      decide
    rw [this, total_quota]
    norm_num
  exact ⟨h1, h2, c10_negative_pace _ 0 .D ⟨2024, 6, 15⟩ h1 h2⟩

/-- C7: a segment with no exactly-matching quota row yields a quota of 0
rather than an error; and whenever `monthly_quota` is 0 (in particular for
`daily_quota = 0`) both percentage figures are 0 — the division is guarded,
never raising and never producing NaN. -/
theorem c7_missing_quota :
    (∀ (rows : List QuotaRow) (n l : String) (ao : Bool),
      (∀ r ∈ rows, ¬(r.nationality = n ∧ r.location = l)) →
      get_daily_quota rows n l ao = 0) ∧
    (∀ (df : List App) (dq : ℚ) (today : Date), monthly_quota dq today = 0 →
      percent_delivered df dq today = 0 ∧ percent_forecast df dq today = 0) ∧
    (∀ today : Date, monthly_quota 0 today = 0) := by
  refine ⟨fun rows n l ao h => ?_, fun df dq t h => ?_, fun t => ?_⟩
  · rw [get_daily_quota, List.find?_eq_none.mpr]
    intro r hr
    simp only [Bool.and_eq_true, beq_iff_eq, not_and]
    intro h1 h2
    exact h r hr ⟨h1, h2⟩
  · constructor <;> simp [percent_delivered, percent_forecast, h]
  · simp [monthly_quota]

/-- C7 witness: an empty quota table gives quota 0, and a zero daily quota
gives zero percentages. -/
theorem c7_missing_quota_witness :
    (∀ r ∈ ([] : List QuotaRow), ¬(r.nationality = "Filipina" ∧ r.location = "Philippines")) ∧
    get_daily_quota [] "Filipina" "Philippines" true = 0 ∧
    monthly_quota 0 ⟨2024, 1, 21⟩ = 0 ∧
    percent_delivered c2Events 0 ⟨2024, 1, 21⟩ = 0 ∧
    percent_forecast c2Events 0 ⟨2024, 1, 21⟩ = 0 := by
  have hq : monthly_quota 0 ⟨2024, 1, 21⟩ = 0 := c7_missing_quota.2.2 ⟨2024, 1, 21⟩
  have hp := c7_missing_quota.2.1 c2Events 0 ⟨2024, 1, 21⟩ hq
  exact ⟨by simp, c7_missing_quota.1 [] "Filipina" "Philippines" true (by simp),
    hq, hp.1, hp.2⟩

/-- For every segment other than the case-insensitive
(filipina, philippines) one, `active_only` has no effect on
`filter_applications`. -/
theorem filter_applications_nonspecial (df : List App) (n l : String)
    (h : ¬(pyLower n = "filipina" ∧ pyLower l = "philippines")) :
    filter_applications df n l true = filter_applications df n l false := by
  have ht : (true && pyLower n == "filipina" && pyLower l == "philippines") = false := by
    by_cases h1 : pyLower n = "filipina"
    · by_cases h2 : pyLower l = "philippines"
      · exact absurd ⟨h1, h2⟩ h
      · simp [h2]
    · simp [h1]
  unfold filter_applications
  rw [ht]
  simp

/-- C6: `filter_applications` keeps exactly the events whose nationality and
location equal the segment's, case-sensitively; only when `active_only`
holds and the segment is case-insensitively (filipina, philippines) does it
additionally require `active_visa_status = "true"`; for every other segment
`active_only` has no effect.  Concretely: a (Filipina, Philippines) event
with flag "false" is dropped under `active_only`, while an
(Ethiopian, outside_uae) event with flag "false" is kept. -/
theorem c6_segment_filter :
    (∀ (df : List App) (n l : String) (ao : Bool) (a : App),
      a ∈ filter_applications df n l ao ↔
        a ∈ df ∧ a.nationality = n ∧ a.location = l ∧
          (ao = true ∧ pyLower n = "filipina" ∧ pyLower l = "philippines" →
            a.active_visa_status = "true")) ∧
    (∀ (df : List App) (n l : String),
      ¬(pyLower n = "filipina" ∧ pyLower l = "philippines") →
      filter_applications df n l true = filter_applications df n l false) ∧
    filter_applications [c6EventSpecial] "Filipina" "Philippines" true = [] ∧
    filter_applications [c6EventOther] "Ethiopian" "outside_uae" true =
      [c6EventOther] := by
  refine ⟨fun df n l ao a => ?_, fun df n l h => filter_applications_nonspecial df n l h,
    ?_, ?_⟩
  · unfold filter_applications
    by_cases hc : (ao && pyLower n == "filipina" && pyLower l == "philippines") = true
    · have hcp := hc
      simp only [Bool.and_eq_true, beq_iff_eq] at hcp
      rw [if_pos hc]
      simp only [List.mem_filter, Bool.and_eq_true, beq_iff_eq]
      constructor
      · rintro ⟨⟨ha, hn, hl⟩, hv⟩
        exact ⟨ha, hn, hl, fun _ => hv⟩
      · rintro ⟨ha, hn, hl, hv⟩
        exact ⟨⟨ha, hn, hl⟩, hv ⟨hcp.1.1, hcp.1.2, hcp.2⟩⟩
    · rw [if_neg hc]
      simp only [Bool.and_eq_true, beq_iff_eq, not_and] at hc
      simp only [List.mem_filter, Bool.and_eq_true, beq_iff_eq]
      constructor
      · rintro ⟨ha, hn, hl⟩
        refine ⟨ha, hn, hl, fun hs => absurd hs.2.2 (hc ⟨hs.1, hs.2.1⟩)⟩
      · rintro ⟨ha, hn, hl, _⟩
        exact ⟨ha, hn, hl⟩
  · decide
  · decide

/-- C6 witness: the non-special segment ignores `active_only` on a concrete
table. -/
theorem c6_segment_filter_witness :
    ¬(pyLower "Ethiopian" = "filipina" ∧ pyLower "outside_uae" = "philippines") ∧
    filter_applications [c6EventOther] "Ethiopian" "outside_uae" true =
      filter_applications [c6EventOther] "Ethiopian" "outside_uae" false :=
  ⟨by decide, c6_segment_filter.2.1 [c6EventOther] "Ethiopian" "outside_uae" (by decide)⟩

/-- C9: whenever a quota row matches the segment, `get_daily_quota` under
`active_only` returns the `quota_active` column for every segment — even
those for which `filter_applications` ignores `active_only` entirely — so
quota and delivered counts can use inconsistent active-visa definitions. -/
theorem c9_quota_filter_mismatch :
    (∀ (rows : List QuotaRow) (n l : String) (r : QuotaRow),
      rows.find? (fun q => q.nationality == n && q.location == l) = some r →
      get_daily_quota rows n l true = r.quota_active) ∧
    (∀ (df : List App) (n l : String),
      ¬(pyLower n = "filipina" ∧ pyLower l = "philippines") →
      filter_applications df n l true = filter_applications df n l false) := by
  refine ⟨fun rows n l r h => ?_, fun df n l h => filter_applications_nonspecial df n l h⟩
  simp [get_daily_quota, h]

/-- C9 witness: on the (Ethiopian, outside_uae) quota row, `active_only`
switches the quota to `quota_active` (3, not 5) although the same flag does
not change the filtered events for that segment. -/
theorem c9_quota_filter_mismatch_witness :
    c9Quotas.find? (fun q => q.nationality == "Ethiopian" && q.location == "outside_uae") =
      some ⟨"Ethiopian", "outside_uae", 5, 3⟩ ∧
    get_daily_quota c9Quotas "Ethiopian" "outside_uae" true =
      QuotaRow.quota_active ⟨"Ethiopian", "outside_uae", 5, 3⟩ ∧
    ¬(pyLower "Ethiopian" = "filipina" ∧ pyLower "outside_uae" = "philippines") ∧
    filter_applications [c6EventOther] "Ethiopian" "outside_uae" true =
      filter_applications [c6EventOther] "Ethiopian" "outside_uae" false :=
  ⟨by decide,
   c9_quota_filter_mismatch.1 c9Quotas "Ethiopian" "outside_uae" _ (by decide),
   by decide,
   c9_quota_filter_mismatch.2 [c6EventOther] "Ethiopian" "outside_uae" (by decide)⟩

/-- `sortIndex` always produces a list that is pairwise ascending in
`periodSortKey`. -/
theorem sortIndex_sorted (l : List Period) :
    (sortIndex l).Pairwise (fun a b => periodSortKey a ≤ periodSortKey b) := by
  haveI : IsTotal Period (fun a b => periodSortKey a ≤ periodSortKey b) :=
    ⟨fun a b => le_total _ _⟩
  haveI : IsTrans Period (fun a b => periodSortKey a ≤ periodSortKey b) :=
    ⟨fun a b c hab hbc => le_trans hab hbc⟩
  exact List.sorted_insertionSort _ l

/-- C5: the ordering of the pivot index.  Day keys come out ascending in the
numeric key `month*100 + day` (chronological within a year), week keys
ascending numerically, and month keys in the fixed calendar order Jan..Dec;
in particular the day keys "05/01", "20/12", "01/02" come out as
["05/01", "01/02", "20/12"]. -/
theorem c5_period_ordering :
    (∀ (df : List App) (ty ly : Nat) (today : Date),
      ((prepare_grouped df .D ty ly today).index).Pairwise
        (fun a b => periodSortKey a ≤ periodSortKey b)) ∧
    (∀ (df : List App) (ty ly : Nat) (today : Date),
      ((prepare_grouped df .W ty ly today).index).Pairwise
        (fun a b => periodSortKey a ≤ periodSortKey b)) ∧
    (∀ (df : List App) (ty ly : Nat) (today : Date),
      (prepare_grouped df .M ty ly today).index = [] ∨
      (prepare_grouped df .M ty ly today).index = monthIndexAll) ∧
    sortIndex [.day 5 1, .day 20 12, .day 1 2] =
      [.day 5 1, .day 1 2, .day 20 12] ∧
    (prepare_grouped c5Events .D 2024 2023 ⟨2024, 12, 31⟩).index =
      [.day 5 1, .day 1 2, .day 20 12] := by
  refine ⟨fun df ty ly today => sortIndex_sorted _,
    fun df ty ly today => sortIndex_sorted _, fun df ty ly today => ?_,
    by decide, by decide⟩
  by_cases h : yearFiltered df ty ly = []
  · left
    simp [prepare_grouped, indexPre, h]
  · right
    simp [prepare_grouped, indexPre, h]

/-- C1: the future-masking invariant.  For every event set, granularity and
`today`, every period key chronologically strictly after `today` (at the
granularity's resolution) has an absent cell in the current-year
(`today.year`) column of the table returned by `prepare_grouped` — never
zero, never a computed count. -/
theorem c1_future_masking (df : List App) (level : Level) (ly : Nat) (today : Date)
    (p : Period) (h : periodAfter level p today = true) :
    (prepare_grouped df level today.year ly today).cell p today.year = none := by
  show maskedCell df level today.year ly today p today.year = none
  by_cases hcol : inColumns df today.year ly today.year = true
  · unfold maskedCell
    rw [if_pos (by simp [hcol])]
    cases level with
    | M =>
      cases p with
      | month m =>
        simp only [periodAfter, decide_eq_true_eq] at h
        exact if_pos h
      | week w => simp [periodAfter] at h
      | day dd mm => simp [periodAfter] at h
    | W =>
      cases p with
      | month m => simp [periodAfter] at h
      | week w =>
        simp only [periodAfter, decide_eq_true_eq] at h
        exact if_pos h
      | day dd mm => simp [periodAfter] at h
    | D =>
      cases p with
      | month m => simp [periodAfter] at h
      | week w => simp [periodAfter] at h
      | day dd mm =>
        rw [if_neg]
        simp only [List.contains_eq_any_beq, List.any_eq_true, beq_iff_eq,
          not_exists, not_and]
        intro q hq
        unfold validDays at hq
        rw [List.mem_dedup] at hq
        obtain ⟨a, ha, hap⟩ := List.mem_map.mp hq
        rw [List.mem_filter] at ha
        obtain ⟨-, hcond⟩ := ha
        simp only [Bool.and_eq_true, beq_iff_eq] at hcond
        obtain ⟨hy, hble⟩ := hcond
        simp only [periodOf] at hap
        simp only [Date.ble, hy, Bool.or_eq_true, Bool.and_eq_true,
          decide_eq_true_eq, beq_iff_eq] at hble
        simp only [periodAfter, Bool.or_eq_true, Bool.and_eq_true,
          decide_eq_true_eq, beq_iff_eq] at h
        intro hqp
        have hpd : Period.day a.application_date.day a.application_date.month =
            Period.day dd mm := by rw [hap, ← hqp]
        injection hpd with hd hm
        simp only [lt_irrefl, false_or, true_and] at hble
        omega
  · unfold maskedCell
    rw [if_neg (by simp [hcol])]
    unfold cellPre
    rw [if_neg (by simp [hcol])]

/-- C1 witness: a current-year event in ISO week 27 of 2024 with
`today = 2024-06-15` (ISO week 24): the week-27 cell of the 2024 column is
absent. -/
theorem c1_future_masking_witness :
    periodAfter .W (.week 27) ⟨2024, 6, 15⟩ = true ∧
    (prepare_grouped c1Events .W (Date.year ⟨2024, 6, 15⟩) 2023
      ⟨2024, 6, 15⟩).cell (.week 27) (Date.year ⟨2024, 6, 15⟩) = none :=
  ⟨by decide, c1_future_masking c1Events .W 2023 ⟨2024, 6, 15⟩ (.week 27) (by decide)⟩

/-- C8 counterexample: with a single January-2024 event, the (Feb, 2024)
combination has no matching events, yet the pre-masking month table carries
the number 0 at that cell rather than being absent — the `Categorical`
month column makes `groupby` (pandas default `observed=False`) emit a zero
size for every unobserved month of an observed year. -/
theorem c8_premask_counterexample :
    rawCount c8Events .M 2024 2023 (.month 2) 2024 = 0 ∧
    cellPre c8Events .M 2024 2023 (.month 2) 2024 = some 0 := by
  decide

/-- C8 (amended): for week and day granularity, a `(key, year)` combination
with no matching events is absent (`none`) before masking; for month
granularity the pre-masking index contains all 12 months as soon as any
year-filtered event exists, and every (month, observed-year) cell carries a
numeric count — which is 0, not absent, for unobserved combinations. -/
theorem c8_premask_absence :
    (∀ (df : List App) (ty ly : Nat) (p : Period) (y : Nat),
      rawCount df .W ty ly p y = 0 → cellPre df .W ty ly p y = none) ∧
    (∀ (df : List App) (ty ly : Nat) (p : Period) (y : Nat),
      rawCount df .D ty ly p y = 0 → cellPre df .D ty ly p y = none) ∧
    (∀ (df : List App) (ty ly : Nat),
      yearFiltered df ty ly ≠ [] → indexPre df .M ty ly = monthIndexAll) ∧
    (∀ (df : List App) (ty ly : Nat) (p : Period) (y : Nat),
      inColumns df ty ly y = true → p ∈ indexPre df .M ty ly →
      cellPre df .M ty ly p y = some (rawCount df .M ty ly p y)) := by
  refine ⟨fun df ty ly p y h => ?_, fun df ty ly p y h => ?_,
    fun df ty ly h => ?_, fun df ty ly p y hcol hp => ?_⟩
  · unfold cellPre
    by_cases hg : (inColumns df ty ly y && (indexPre df .W ty ly).contains p) = true
    · rw [if_pos hg]
      simp [h]
    · rw [if_neg hg]
  · unfold cellPre
    by_cases hg : (inColumns df ty ly y && (indexPre df .D ty ly).contains p) = true
    · rw [if_pos hg]
      simp [h]
    · rw [if_neg hg]
  · simp [indexPre, h]
  · unfold cellPre
    rw [if_pos]
    simp only [Bool.and_eq_true, hcol, true_and, List.contains_eq_any_beq,
      List.any_eq_true, beq_iff_eq]
    exact ⟨p, hp, rfl⟩

/-- C8 witness: the amended statement evaluated on the single-January-event
table — week cells of an unobserved week are absent, the month index is all
12 months, and the unobserved (Feb, 2024) month cell is the count 0. -/
theorem c8_premask_absence_witness :
    rawCount c8Events .W 2024 2023 (.week 10) 2024 = 0 ∧
    cellPre c8Events .W 2024 2023 (.week 10) 2024 = none ∧
    yearFiltered c8Events 2024 2023 ≠ [] ∧
    indexPre c8Events .M 2024 2023 = monthIndexAll ∧
    inColumns c8Events 2024 2023 2024 = true ∧
    Period.month 2 ∈ indexPre c8Events .M 2024 2023 ∧
    cellPre c8Events .M 2024 2023 (.month 2) 2024 =
      some (rawCount c8Events .M 2024 2023 (.month 2) 2024) :=
  ⟨by decide, c8_premask_absence.1 c8Events 2024 2023 (.week 10) 2024 (by decide),
   by decide, c8_premask_absence.2.2.1 c8Events 2024 2023 (by decide),
   by decide, by decide,
   c8_premask_absence.2.2.2 c8Events 2024 2023 (.month 2) 2024 (by decide) (by decide)⟩

end MaidsTracker
